import Mathlib

/-!
Verification development for the ADS1115 analog-to-digital converter driver
(`src/ads1115.py`). The Python class `ADS1115` is shallowly embedded here:

* the settings enumerations become inductive types with an explicit `value`
  function holding the exact bit pattern of each member;
* `_calculate_config_register` / `get_config_registers` become pure functions
  on a settings record (the Python object stores the enum members' `.value`
  integers; the record stores the enum members and the functions take
  `.value`, which is the same data);
* `_read_analog_input` becomes a function of the gain code, the sample count
  and the sequence of raw 2-byte bus reads, with Python floats modelled as
  exact rationals and Python's `ZeroDivisionError` as an `Except` error;
* the `Queue(maxsize=20)` history buffer and the body of
  `_read_all_analog_inputs` become a step function on a `List` of snapshots,
  with one cycle's measurement outcome given as an `Except`;
* `__init__`'s guard sequence becomes a function from the outcome of each
  guard to the observable construction outcome.
-/

namespace TiADS1115

/-- Enumeration `I2CAddress` of `ads1115.py`. -/
inductive I2CAddress where
  | X48 | X49 | X4A | X4B
deriving DecidableEq

def I2CAddress.value : I2CAddress → Nat
  | .X48 => 0x48
  | .X49 => 0x49
  | .X4A => 0x4A
  | .X4B => 0x4B

/-- Enumeration `PGA` of `ads1115.py` (gain / full-scale range codes). -/
inductive PGA where
  | FSR_6_144 | FSR_4_096 | FSR_2_048 | FSR_1_024
  | FSR_0_512 | FSR_0_256_1 | FSR_0_256_2 | FSR_0_256_3
deriving DecidableEq

def PGA.value : PGA → Nat
  | .FSR_6_144 => 0b000
  | .FSR_4_096 => 0b001
  | .FSR_2_048 => 0b010
  | .FSR_1_024 => 0b011
  | .FSR_0_512 => 0b100
  | .FSR_0_256_1 => 0b101
  | .FSR_0_256_2 => 0b110
  | .FSR_0_256_3 => 0b111

/-- Enumeration `OperatingMode` of `ads1115.py`. -/
inductive OperatingMode where
  | CONTINUOUS | SINGLE_SHOT
deriving DecidableEq

def OperatingMode.value : OperatingMode → Nat
  | .CONTINUOUS => 0b0
  | .SINGLE_SHOT => 0b1

/-- Enumeration `DataRate` of `ads1115.py`. -/
inductive DataRate where
  | SPS_8 | SPS_16 | SPS_32 | SPS_64 | SPS_128 | SPS_250 | SPS_475 | SPS_860
deriving DecidableEq

def DataRate.value : DataRate → Nat
  | .SPS_8 => 0b000
  | .SPS_16 => 0b001
  | .SPS_32 => 0b010
  | .SPS_64 => 0b011
  | .SPS_128 => 0b100
  | .SPS_250 => 0b101
  | .SPS_475 => 0b110
  | .SPS_860 => 0b111

/-- Enumeration `ComparatorMode` of `ads1115.py`. -/
inductive ComparatorMode where
  | TRADITIONAL | WINDOW
deriving DecidableEq

def ComparatorMode.value : ComparatorMode → Nat
  | .TRADITIONAL => 0b0
  | .WINDOW => 0b1

/-- Enumeration `ComparatorPolarity` of `ads1115.py`. -/
inductive ComparatorPolarity where
  | ACTIVE_LOW | ACTIVE_HIGH
deriving DecidableEq

def ComparatorPolarity.value : ComparatorPolarity → Nat
  | .ACTIVE_LOW => 0b0
  | .ACTIVE_HIGH => 0b1

/-- Enumeration `LatchingComparator` of `ads1115.py`. -/
inductive LatchingComparator where
  | NONLATCHING | LATCHING
deriving DecidableEq

def LatchingComparator.value : LatchingComparator → Nat
  | .NONLATCHING => 0b0
  | .LATCHING => 0b1

/-- Enumeration `ComparatorQueue` of `ads1115.py`. -/
inductive ComparatorQueue where
  | AFTER_ONE_CONVERSION | AFTER_TWO_CONVERSIONS | AFTER_FOUR_CONVERSIONS | DISABLED
deriving DecidableEq

def ComparatorQueue.value : ComparatorQueue → Nat
  | .AFTER_ONE_CONVERSION => 0b00
  | .AFTER_TWO_CONVERSIONS => 0b01
  | .AFTER_FOUR_CONVERSIONS => 0b10
  | .DISABLED => 0b11

/-- Enumeration `_OperationalStatus` of `ads1115.py` (leading underscore dropped). -/
inductive OperationalStatus where
  | NONE | START
deriving DecidableEq

def OperationalStatus.value : OperationalStatus → Nat
  | .NONE => 0b0
  | .START => 0b1

/-- Enumeration `_Multiplexer` of `ads1115.py` (leading underscore dropped). -/
inductive Multiplexer where
  | IN0_IN1 | IN0_IN3 | IN1_IN3 | IN2_IN3 | IN0_GND | IN1_GND | IN2_GND | IN3_GND
deriving DecidableEq

def Multiplexer.value : Multiplexer → Nat
  | .IN0_IN1 => 0b000
  | .IN0_IN3 => 0b001
  | .IN1_IN3 => 0b010
  | .IN2_IN3 => 0b011
  | .IN0_GND => 0b100
  | .IN1_GND => 0b101
  | .IN2_GND => 0b110
  | .IN3_GND => 0b111

/-- Enumeration `_PointerRegister` of `ads1115.py` (leading underscore dropped). -/
inductive PointerRegister where
  | CONVERSION | CONFIG | LO_THRESH | HI_THRESH
deriving DecidableEq

def PointerRegister.value : PointerRegister → Nat
  | .CONVERSION => 0b00
  | .CONFIG => 0b01
  | .LO_THRESH => 0b10
  | .HI_THRESH => 0b11

/-- The typed settings an `ADS1115` instance stores in `__init__`
(`self.pga`, `self.sampling`, `self.operating_mode`, …).  The Python object
stores each enum member's `.value`; here the member itself is stored and the
config-register computation takes `.value`.  `sampling` is an arbitrary
integer because `__init__` performs no validation on it. -/
structure ADS1115Settings where
  pga : PGA
  sampling : Int
  operating_mode : OperatingMode
  data_rate : DataRate
  comparator_mode : ComparatorMode
  comparator_polarity : ComparatorPolarity
  latching_comparator : LatchingComparator
  comparator_queue : ComparatorQueue
deriving DecidableEq

/-- `ADS1115._calculate_config_register` (lines 182-194): two config bytes
`[high, low]` built with shifts and bitwise or, exactly as the source. -/
def calculate_config_register (s : ADS1115Settings) (mux_config : Nat) : List Nat :=
  let config_reg_low :=
    s.data_rate.value <<< 5 |||
    s.comparator_mode.value <<< 4 |||
    s.comparator_polarity.value <<< 3 |||
    s.latching_comparator.value <<< 2 |||
    s.comparator_queue.value
  [OperationalStatus.START.value <<< 7 |||
   mux_config <<< 4 |||
   s.pga.value <<< 1 |||
   s.operating_mode.value,
   config_reg_low]

/-- `ADS1115.get_config_registers` (lines 196-206): the per-channel config
words, keyed by channel name. -/
def get_config_registers (s : ADS1115Settings) : List (String × List Nat) :=
  [("in0_in1", calculate_config_register s Multiplexer.IN0_IN1.value),
   ("in0_in3", calculate_config_register s Multiplexer.IN0_IN3.value),
   ("in1_in3", calculate_config_register s Multiplexer.IN1_IN3.value),
   ("in2_in3", calculate_config_register s Multiplexer.IN2_IN3.value),
   ("in0_gnd", calculate_config_register s Multiplexer.IN0_GND.value),
   ("in1_gnd", calculate_config_register s Multiplexer.IN1_GND.value),
   ("in2_gnd", calculate_config_register s Multiplexer.IN2_GND.value),
   ("in3_gnd", calculate_config_register s Multiplexer.IN3_GND.value)]

/-- The byte-swap `data[0] << 8 | data[1]` of `_read_analog_input` (line 236):
the unsigned 16-bit conversion value with the first byte as high byte. -/
def raw_adc_unsigned (b0 b1 : Nat) : Nat := b0 <<< 8 ||| b1

/-- The signed decode of `_read_analog_input` (lines 236-239): the unsigned
16-bit value, reduced by 65536 when it exceeds 32767 (`if raw_adc > 32767:
raw_adc -= 65536`). -/
def decode_raw_adc (b0 b1 : Nat) : Int :=
  if raw_adc_unsigned b0 b1 > 32767 then (raw_adc_unsigned b0 b1 : Int) - 65536
  else (raw_adc_unsigned b0 b1 : Int)

/-- Class attribute `v_offset = 0.02` (line 93); Python floats are modelled
as exact rationals. -/
def v_offset : ℚ := 0.02

/-- Class attribute `dead_time = 0.01` (line 92). -/
def dead_time : ℚ := 0.01

/-- Class attribute `sampling_period = 0.5` (line 94). -/
def sampling_period : ℚ := 0.5

/-- The `step_size` dict of `_read_analog_input` (lines 210-219), keyed by
the stored gain code `self.pga`.  The stored code is always a `PGA` member
value, hence < 8; other keys would raise `KeyError` in Python and are given
the junk value 0 here. -/
def step_size : Nat → ℚ
  | 0 => 0.1875
  | 1 => 0.125
  | 2 => 0.0625
  | 3 => 0.03125
  | 4 => 0.015625
  | 5 => 0.0078125
  | 6 => 0.0078125
  | 7 => 0.0078125
  | _ => 0

/-- `ADS1115._read_analog_input` (lines 208-243) for gain code `pga`, sample
count `sampling` and the sequence `reads` of raw 2-byte conversion results
returned by the bus (the `i`-th loop iteration reads `reads i`).  The loop
accumulates `total += (raw_adc * step_size[self.pga] / 1000) - self.v_offset`
and the function returns `total / self.sampling`; that final division raises
`ZeroDivisionError` in Python exactly when `sampling = 0` (the loop body
itself is pure in this model, so the zero test is hoisted in front). -/
def read_analog_input (pga : Nat) (sampling : Nat) (reads : Nat → Nat × Nat) :
    Except String ℚ :=
  if sampling = 0 then Except.error "ZeroDivisionError"
  else Except.ok
    ((List.range sampling).foldl
      (fun total i =>
        total + ((decode_raw_adc (reads i).1 (reads i).2 : ℚ) * step_size pga / 1000 - v_offset))
      0 / (sampling : ℚ))

deriving instance DecidableEq for Except

/-- Capacity of the history buffer `Queue(maxsize=20)` (line 151). -/
def buffer_maxsize : Nat := 20

/-- The eviction step at the head of each `_read_all_analog_inputs` cycle
(lines 272-273): `if self.__data.full(): self.__data.get()` — when the queue
holds `maxsize` entries the oldest (head) is removed.  The buffer is a list
with the oldest entry first, matching FIFO `Queue` order. -/
def sampler_evict {α : Type} (buf : List α) : List α :=
  if buffer_maxsize ≤ buf.length then buf.drop 1 else buf

/-- One iteration of the `while True` body of `_read_all_analog_inputs`
(lines 270-296) acting on the history buffer.  The source first evicts the
oldest entry when the queue is full, and only then evaluates the eight
channel reads that build the snapshot passed to `put`; `measurement` is the
outcome of that evaluation: `Except.ok snap` when every read succeeds (then
`put(snap)` appends it), `Except.error e` when a read raises (the `except`
branch logs the warning and the cycle performs no `put`). -/
def sampler_cycle {α : Type} (buf : List α) (measurement : Except String α) : List α :=
  match measurement with
  | Except.error _ => sampler_evict buf
  | Except.ok snap => sampler_evict buf ++ [snap]

/-- Observable effects of one sampler cycle: the resulting buffer, whether a
warning was logged (`except` branch, lines 289-293), and whether the
sampling-period sleep ran (`finally` branch, lines 295-296 — it always does). -/
structure CycleTrace (α : Type) where
  buf : List α
  warned : Bool
  slept : Bool
deriving DecidableEq

/-- One sampler cycle together with its observable log/sleep effects. -/
def sampler_cycle_traced {α : Type} (buf : List α) (measurement : Except String α) :
    CycleTrace α :=
  { buf := sampler_cycle buf measurement,
    warned := match measurement with
      | Except.error _ => true
      | Except.ok _ => false,
    slept := true }

/-- The sampler loop run over a finite prefix of cycle outcomes: every cycle
is processed (an error never terminates the loop). -/
def sampler_run {α : Type} (buf : List α) (cycles : List (Except String α)) : List α :=
  cycles.foldl (fun b m => sampler_cycle b m) buf

/-- `ADS1115.get_measurement` (lines 298-302): return the empty dict when
the buffer is empty, otherwise pop and return the oldest entry.  The empty
dict is modelled as `none`, a popped snapshot as `some`. -/
def get_measurement {α : Type} (buf : List α) : Option α × List α :=
  match buf with
  | [] => (none, buf)
  | x :: rest => (some x, rest)

/-- Observable outcome of running `ADS1115.__init__`. -/
inductive InitOutcome where
  | uncaughtError (excName : String)
  | exitWithDiagnostic (msg : String)
  | samplerStarted
deriving DecidableEq

/-- Control flow of `ADS1115.__init__` (lines 96-169), as a function of the
outcome of each guard.  Two guards cannot produce their diagnostic:

* when `bus` is not an `int` (lines 111-119), the diagnostic f-string
  evaluates `I2CBus.__name__` but no name `I2CBus` exists anywhere in the
  module, so formatting raises an uncaught `NameError` instead of printing
  the message and calling `sys.exit(1)`;
* when the device is not detected (lines 153-160), the diagnostic f-string
  evaluates `bus.value`, but at that point `bus` is a plain `int` (it passed
  the `isinstance(bus, int)` guard), so formatting raises an uncaught
  `AttributeError`.

The `pga` and `address` guards (lines 121-139) format their messages from
names that do exist and exit with the diagnostic.  Only when every guard
passes does `__init__` reach `self._run()` (line 169), which starts the
background sampler thread.  `sampling` is stored on line 144 with no
validation whatsoever, so it never influences the outcome. -/
def ads1115_init (busIsInt pgaIsPGA addressIsI2CAddress detected : Bool)
    (sampling : Int) : InitOutcome :=
  if !busIsInt then InitOutcome.uncaughtError "NameError"
  else if !pgaIsPGA then InitOutcome.exitWithDiagnostic "'pga' type mismatched"
  else if !addressIsI2CAddress then InitOutcome.exitWithDiagnostic "'address' type mismatched"
  else if !detected then InitOutcome.uncaughtError "AttributeError"
  else InitOutcome.samplerStarted

lemma pga_value_lt (p : PGA) : p.value < 8 := by cases p <;> decide

lemma operating_mode_value_lt (m : OperatingMode) : m.value < 2 := by cases m <;> decide

lemma data_rate_value_lt (d : DataRate) : d.value < 8 := by cases d <;> decide

lemma comparator_mode_value_lt (c : ComparatorMode) : c.value < 2 := by cases c <;> decide

lemma comparator_polarity_value_lt (c : ComparatorPolarity) : c.value < 2 := by
  cases c <;> decide

lemma latching_comparator_value_lt (c : LatchingComparator) : c.value < 2 := by
  cases c <;> decide

lemma comparator_queue_value_lt (c : ComparatorQueue) : c.value < 4 := by cases c <;> decide

lemma multiplexer_value_lt (m : Multiplexer) : m.value < 8 := by cases m <;> decide

/-- Bit-packing of the high config byte: for in-range fields the shift-or
expression of the source equals the weighted sum of the fields. -/
lemma config_high_pack :
    ∀ a < 2, ∀ m < 8, ∀ p < 8, ∀ om < 2,
      a <<< 7 ||| m <<< 4 ||| p <<< 1 ||| om = 128 * a + 16 * m + 2 * p + om := by
  decide

/-- Bit-packing of the low config byte: for in-range fields the shift-or
expression of the source equals the weighted sum of the fields. -/
lemma config_low_pack :
    ∀ dr < 8, ∀ cm < 2, ∀ cp < 2, ∀ lc < 2, ∀ cq < 4,
      dr <<< 5 ||| cm <<< 4 ||| cp <<< 3 ||| lc <<< 2 ||| cq =
        32 * dr + 16 * cm + 8 * cp + 4 * lc + cq := by
  decide

/-- The config word in closed arithmetic form. -/
lemma calculate_config_register_eq (s : ADS1115Settings) (m : Nat) (hm : m < 8) :
    calculate_config_register s m =
      [128 + 16 * m + 2 * s.pga.value + s.operating_mode.value,
       32 * s.data_rate.value + 16 * s.comparator_mode.value +
         8 * s.comparator_polarity.value + 4 * s.latching_comparator.value +
         s.comparator_queue.value] := by
  have h0 := config_high_pack 1 (by decide)
    m hm s.pga.value (pga_value_lt s.pga)
    s.operating_mode.value (operating_mode_value_lt s.operating_mode)
  have h1 := config_low_pack s.data_rate.value (data_rate_value_lt s.data_rate)
    s.comparator_mode.value (comparator_mode_value_lt s.comparator_mode)
    s.comparator_polarity.value (comparator_polarity_value_lt s.comparator_polarity)
    s.latching_comparator.value (latching_comparator_value_lt s.latching_comparator)
    s.comparator_queue.value (comparator_queue_value_lt s.comparator_queue)
  simp only [calculate_config_register, h0, h1, OperationalStatus.value]

/-- C1: for every valid settings record and every channel selector the config
word is the two-byte list whose byte 0 carries the start bit (value 1) in
bit 7, the 3-bit multiplexer code in bits 6-4, the 3-bit gain code in
bits 3-1 and the operating mode in bit 0, and whose byte 1 carries the 3-bit
data-rate code in bits 7-5, comparator mode in bit 4, comparator polarity in
bit 3, latching in bit 2 and the 2-bit comparator queue in bits 1-0. -/
theorem config_register_bit_layout (s : ADS1115Settings) (m : Multiplexer) :
    (calculate_config_register s m.value).length = 2 ∧
    ((calculate_config_register s m.value).getD 0 0) < 256 ∧
    ((calculate_config_register s m.value).getD 0 0) / 128 % 2 = 1 ∧
    ((calculate_config_register s m.value).getD 0 0) / 16 % 8 = m.value ∧
    ((calculate_config_register s m.value).getD 0 0) / 2 % 8 = s.pga.value ∧
    ((calculate_config_register s m.value).getD 0 0) % 2 = s.operating_mode.value ∧
    ((calculate_config_register s m.value).getD 1 0) < 256 ∧
    ((calculate_config_register s m.value).getD 1 0) / 32 % 8 = s.data_rate.value ∧
    ((calculate_config_register s m.value).getD 1 0) / 16 % 2 = s.comparator_mode.value ∧
    ((calculate_config_register s m.value).getD 1 0) / 8 % 2 = s.comparator_polarity.value ∧
    ((calculate_config_register s m.value).getD 1 0) / 4 % 2 = s.latching_comparator.value ∧
    ((calculate_config_register s m.value).getD 1 0) % 4 = s.comparator_queue.value := by
  rw [calculate_config_register_eq s m.value (multiplexer_value_lt m)]
  have hm := multiplexer_value_lt m
  have hp := pga_value_lt s.pga
  have hom := operating_mode_value_lt s.operating_mode
  have hdr := data_rate_value_lt s.data_rate
  have hcm := comparator_mode_value_lt s.comparator_mode
  have hcp := comparator_polarity_value_lt s.comparator_polarity
  have hlc := latching_comparator_value_lt s.latching_comparator
  have hcq := comparator_queue_value_lt s.comparator_queue
  refine ⟨rfl, ?_, ?_, ?_, ?_, ?_, ?_, ?_, ?_, ?_, ?_, ?_⟩ <;>
    simp only [List.getD_cons_zero, List.getD_cons_succ] <;> omega

/-- The byte-swap is place-value recombination whenever the low byte is an
actual byte. -/
lemma raw_adc_unsigned_eq (b0 b1 : Nat) (h : b1 < 256) :
    raw_adc_unsigned b0 b1 = 256 * b0 + b1 := by
  have h' : b1 < 2 ^ 8 := by omega
  calc b0 <<< 8 ||| b1 = b0 * 2 ^ 8 ||| b1 := by rw [Nat.shiftLeft_eq]
    _ = 2 ^ 8 * b0 ||| b1 := by rw [Nat.mul_comm]
    _ = 2 ^ 8 * b0 + b1 := (Nat.mul_add_lt_is_or h' b0).symm
    _ = 256 * b0 + b1 := by norm_num

/-- Splitting any value into its high and low byte and recombining is the
identity. -/
lemma raw_adc_unsigned_split (u : Nat) : raw_adc_unsigned (u / 256) (u % 256) = u := by
  rw [raw_adc_unsigned_eq _ _ (Nat.mod_lt _ (by norm_num))]
  omega

/-- C2: the decode forms the unsigned 16-bit value from the two bytes (first
byte high) and reinterprets values above 32767 by subtracting 65536; hence
for every integer c in [-32768, 32767] the two bytes of the two's-complement
representation of c decode to exactly c, and every unsigned 16-bit value
u ≥ 32768 decodes to u - 65536. -/
theorem decode_raw_adc_roundtrip :
    (∀ b0 b1 : Nat, b0 < 256 → b1 < 256 →
      raw_adc_unsigned b0 b1 = 256 * b0 + b1) ∧
    (∀ c : Int, -32768 ≤ c → c ≤ 32767 →
      decode_raw_adc ((c % 65536).toNat / 256) ((c % 65536).toNat % 256) = c) ∧
    (∀ u : Nat, 32768 ≤ u → u < 65536 →
      decode_raw_adc (u / 256) (u % 256) = (u : Int) - 65536) := by
  refine ⟨fun b0 b1 _ h1 => raw_adc_unsigned_eq b0 b1 h1, ?_, ?_⟩
  · intro c hlo hhi
    simp only [decode_raw_adc, raw_adc_unsigned_split]
    split <;> omega
  · intro u hlo hhi
    simp only [decode_raw_adc, raw_adc_unsigned_split]
    split <;> omega

/-- Witness for the decode round-trip at concrete inputs: the negative code
-1 (bytes 0xFF 0xFF) and the unsigned value 0x8000. -/
theorem decode_raw_adc_roundtrip_witness :
    raw_adc_unsigned 0x12 0x34 = 256 * 0x12 + 0x34 ∧
    decode_raw_adc (((-1 : Int) % 65536).toNat / 256) (((-1 : Int) % 65536).toNat % 256) = -1 ∧
    decode_raw_adc (0x8000 / 256) (0x8000 % 256) = (0x8000 : Int) - 65536 :=
  ⟨decode_raw_adc_roundtrip.1 0x12 0x34 (by norm_num) (by norm_num),
   decode_raw_adc_roundtrip.2.1 (-1) (by norm_num) (by norm_num),
   decode_raw_adc_roundtrip.2.2 0x8000 (by norm_num) (by norm_num)⟩

/-- The accumulation loop of `_read_analog_input` computes the sum of the
per-sample terms. -/
lemma foldl_add_eq_sum (f : Nat → ℚ) (n : Nat) :
    (List.range n).foldl (fun total i => total + f i) 0 = ∑ i in Finset.range n, f i := by
  induction n with
  | zero => simp
  | succ n ih => rw [List.range_succ, List.foldl_append, Finset.sum_range_succ, ih]; rfl

/-- C3: for every sample count n ≥ 1 and every sequence of raw conversion
reads, `_read_analog_input` returns the unrounded arithmetic mean over the n
samples of `(signed_code * step_size / 1000) - 0.02`, with the step size
taken from the fixed 8-entry gain table whose three highest codes share the
value 0.0078125. -/
theorem read_analog_input_mean (pga sampling : Nat) (reads : Nat → Nat × Nat)
    (h : 1 ≤ sampling) :
    read_analog_input pga sampling reads =
      Except.ok ((∑ i in Finset.range sampling,
        ((decode_raw_adc (reads i).1 (reads i).2 : ℚ) * step_size pga / 1000 - 0.02)) /
        (sampling : ℚ)) ∧
    step_size 0 = 0.1875 ∧ step_size 1 = 0.125 ∧ step_size 2 = 0.0625 ∧
    step_size 3 = 0.03125 ∧ step_size 4 = 0.015625 ∧ step_size 5 = 0.0078125 ∧
    step_size 6 = 0.0078125 ∧ step_size 7 = 0.0078125 := by
  refine ⟨?_, rfl, rfl, rfl, rfl, rfl, rfl, rfl, rfl⟩
  unfold read_analog_input
  rw [if_neg (by omega),
    foldl_add_eq_sum
      (fun i => ((decode_raw_adc (reads i).1 (reads i).2 : ℚ) * step_size pga / 1000 - v_offset))
      sampling]
  rfl

/-- Witness for the averaging theorem: two samples of the constant raw code
0x0100 at gain code 0. -/
theorem read_analog_input_mean_witness :
    read_analog_input 0 2 (fun _ => (1, 0)) =
      Except.ok ((∑ i in Finset.range 2,
        ((decode_raw_adc 1 0 : ℚ) * step_size 0 / 1000 - 0.02)) / (2 : ℚ)) ∧
    step_size 0 = 0.1875 ∧ step_size 1 = 0.125 ∧ step_size 2 = 0.0625 ∧
    step_size 3 = 0.03125 ∧ step_size 4 = 0.015625 ∧ step_size 5 = 0.0078125 ∧
    step_size 6 = 0.0078125 ∧ step_size 7 = 0.0078125 :=
  read_analog_input_mean 0 2 (fun _ => (1, 0)) (by norm_num)

/-- C4 as stated is false: with every read returning raw code 0x7FFF, gain
step size 0.0078125 and sample count 1, the measured value is exactly
(32767 * 0.0078125 / 1000) - 0.02 = 0.2359921875, which is NOT within
±0.0001 of the spec's stated approximation 0.2357. -/
theorem read_fullscale_value_counterexample :
    read_analog_input 5 1 (fun _ => (0x7F, 0xFF)) = Except.ok (0.2359921875 : ℚ) ∧
    ¬ |(0.2359921875 : ℚ) - 0.2357| ≤ 0.0001 := by
  constructor
  · unfold read_analog_input
    rw [if_neg (by norm_num)]
    norm_num [List.range_succ, decode_raw_adc, raw_adc_unsigned_eq, step_size, v_offset]
  · rw [abs_of_pos (by norm_num)]
    norm_num

/-- C4 amended: with every read returning raw code 0x7FFF, gain step size
0.0078125 and sample count 1, `_read_analog_input` returns exactly
(32767 * 0.0078125 / 1000) - 0.02 = 0.2359921875 ≈ 0.2360 volts, within
±0.0001. -/
theorem read_fullscale_value :
    read_analog_input 5 1 (fun _ => (0x7F, 0xFF)) =
      Except.ok ((32767 * 0.0078125 / 1000 - 0.02 : ℚ)) ∧
    |(32767 * 0.0078125 / 1000 - 0.02 : ℚ) - 0.236| ≤ 0.0001 := by
  constructor
  · unfold read_analog_input
    rw [if_neg (by norm_num)]
    norm_num [List.range_succ, decode_raw_adc, raw_adc_unsigned_eq, step_size, v_offset]
  · rw [abs_of_nonpos (by norm_num)]
    norm_num

/-- Pushing successful snapshots while the buffer stays within capacity just
appends them. -/
lemma sampler_run_ok_below {α : Type} (buf : List α) (l : List α)
    (h : buf.length + l.length ≤ 20) :
    sampler_run buf (l.map Except.ok) = buf ++ l := by
  induction l generalizing buf with
  | nil => simp [sampler_run]
  | cons x xs ih =>
    simp only [List.map_cons]
    have hstep : sampler_cycle buf (Except.ok x) = buf ++ [x] := by
      unfold sampler_cycle sampler_evict
      rw [if_neg (by simp only [buffer_maxsize, List.length_cons] at h ⊢; omega)]
    show sampler_run (sampler_cycle buf (Except.ok x)) (xs.map Except.ok) = buf ++ x :: xs
    have hlen : (buf ++ [x]).length + xs.length ≤ 20 := by
      simp only [List.length_append, List.length_cons, List.length_nil] at h ⊢
      omega
    rw [hstep, ih (buf ++ [x]) hlen]
    simp

/-- C5: starting from an empty buffer, 21 successful snapshot pushes with no
intervening pops leave exactly 20 entries: the buffer is exactly pushes 2-21
in order, so the 1st pushed snapshot is gone and the 21st is present. -/
theorem buffer_eviction_21_pushes {α : Type} (s : Nat → α)
    (hdist : ∀ i, 1 ≤ i → i ≤ 20 → s i ≠ s 0) :
    sampler_run [] ((List.range 21).map (fun i => Except.ok (s i))) =
      ((List.range 21).map s).drop 1 ∧
    (sampler_run [] ((List.range 21).map (fun i => Except.ok (s i)))).length = 20 ∧
    s 20 ∈ sampler_run [] ((List.range 21).map (fun i => Except.ok (s i))) ∧
    s 0 ∉ sampler_run [] ((List.range 21).map (fun i => Except.ok (s i))) := by
  have hcanon : ((List.range 21).map s).drop 1 = (List.range 20).map (fun i => s (i + 1)) := by
    rw [List.range_succ_eq_map]
    simp [List.map_map, Function.comp_def]
  have hdrop : ((List.range 20).map s).drop 1 = (List.range 19).map (fun i => s (i + 1)) := by
    rw [List.range_succ_eq_map]
    simp [List.map_map, Function.comp_def]
  have h20 : sampler_run ([] : List α) (((List.range 20).map s).map Except.ok) =
      (List.range 20).map s := by
    simpa using sampler_run_ok_below ([] : List α) ((List.range 20).map s) (by simp)
  have hsplit : (List.range 21).map (fun i => Except.ok (s i)) =
      ((List.range 20).map s).map (Except.ok : α → Except String α) ++ [Except.ok (s 20)] := by
    rw [List.range_succ]
    simp [List.map_map, Function.comp_def]
  have hrun : sampler_run [] ((List.range 21).map (fun i => Except.ok (s i))) =
      ((List.range 21).map s).drop 1 := by
    rw [hsplit]
    show List.foldl (fun b m => sampler_cycle b m) ([] : List α)
      (((List.range 20).map s).map Except.ok ++ [Except.ok (s 20)]) = _
    rw [List.foldl_append]
    have h20' : List.foldl (fun b m => sampler_cycle b m) ([] : List α)
        (((List.range 20).map s).map Except.ok) = (List.range 20).map s := h20
    rw [h20']
    simp only [List.foldl_cons, List.foldl_nil]
    show sampler_cycle ((List.range 20).map s) (Except.ok (s 20)) = _
    unfold sampler_cycle sampler_evict
    rw [if_pos (by simp [buffer_maxsize])]
    rw [hcanon, hdrop]
    conv_rhs => rw [List.range_succ]
    simp
  refine ⟨hrun, ?_, ?_, ?_⟩
  · rw [hrun, hcanon]
    simp
  · rw [hrun, hcanon]
    have : s 20 = (fun i => s (i + 1)) 19 := rfl
    rw [this]
    exact List.mem_map_of_mem _ (by simp)
  · rw [hrun, hcanon]
    intro hmem
    obtain ⟨i, hi, hieq⟩ := List.mem_map.mp hmem
    exact hdist (i + 1) (by omega) (by have := List.mem_range.mp hi; omega) hieq

/-- Witness for the eviction theorem with the distinct snapshots 0, 1, …, 20. -/
theorem buffer_eviction_21_pushes_witness :
    sampler_run [] ((List.range 21).map (fun i => Except.ok i)) =
      ((List.range 21).map (fun i => i)).drop 1 ∧
    (sampler_run [] ((List.range 21).map (fun i => Except.ok i))).length = 20 ∧
    20 ∈ sampler_run [] ((List.range 21).map (fun i => Except.ok i)) ∧
    0 ∉ sampler_run [] ((List.range 21).map (fun i => Except.ok i)) :=
  buffer_eviction_21_pushes (fun i => i) (fun i h1 _ => by show i ≠ 0; omega)

/-- C6: `get_measurement` is total (never blocks, never raises): on an empty
buffer it returns the empty indicator and leaves the buffer empty; on a
non-empty buffer it removes and returns the oldest entry (FIFO order). -/
theorem get_measurement_nonblocking (α : Type) :
    get_measurement ([] : List α) = (none, []) ∧
    (∀ (x : α) (rest : List α), get_measurement (x :: rest) = (some x, rest)) ∧
    (∀ buf : List α,
      (get_measurement buf).1 = buf.head? ∧ (get_measurement buf).2 = buf.tail) := by
  refine ⟨rfl, fun _ _ => rfl, fun buf => ?_⟩
  cases buf <;> exact ⟨rfl, rfl⟩

/-- C7: a measurement-phase error is caught: the failing cycle logs a
warning, still performs the sampling-period sleep, adds nothing to the
buffer (at most the eviction that already happened), and the loop goes on to
process the remaining cycles; a succeeding next cycle buffers its snapshot. -/
theorem sampler_loop_error_resilience {α : Type} (buf : List α) (e : String) (snap : α) :
    (sampler_cycle_traced buf (Except.error e)).warned = true ∧
    (sampler_cycle_traced buf (Except.error e)).slept = true ∧
    (sampler_cycle_traced buf (Except.ok snap)).slept = true ∧
    (sampler_cycle_traced buf (Except.error e)).buf = sampler_evict buf ∧
    List.Sublist (sampler_cycle buf (Except.error e)) buf ∧
    (∀ cycles : List (Except String α),
      sampler_run buf (Except.error e :: cycles) = sampler_run (sampler_evict buf) cycles) ∧
    sampler_run buf [Except.error e, Except.ok snap] =
      sampler_evict (sampler_evict buf) ++ [snap] ∧
    snap ∈ sampler_run buf [Except.error e, Except.ok snap] := by
  refine ⟨rfl, rfl, rfl, rfl, ?_, fun cycles => rfl, rfl, by simp [sampler_run, sampler_cycle]⟩
  have hc : sampler_cycle buf (Except.error e) = sampler_evict buf := rfl
  rw [hc]
  unfold sampler_evict
  by_cases h : buffer_maxsize ≤ buf.length
  · rw [if_pos h]; exact List.drop_sublist 1 buf
  · rw [if_neg h]

/-- C8 as stated is false: a failing cycle does not always leave the buffer
unchanged.  On a full buffer of 20 entries the cycle evicts the oldest entry
before the measurement runs, so the failure leaves 19 entries. -/
theorem failed_cycle_full_buffer_counterexample :
    sampler_cycle (List.range 20) (Except.error "OSError") ≠ List.range 20 := by
  decide

/-- C8 amended: a failing cycle produces no snapshot; it leaves the buffer
unchanged whenever the buffer is below capacity, but at full capacity (20
entries) the eviction has already removed the oldest entry when the failure
occurs, leaving the 19 newest entries. -/
theorem failed_cycle_buffer_effect {α : Type} (buf : List α) (e : String) :
    (buf.length < 20 → sampler_cycle buf (Except.error e) = buf) ∧
    (20 ≤ buf.length → sampler_cycle buf (Except.error e) = buf.drop 1) := by
  constructor <;> intro h <;> unfold sampler_cycle sampler_evict buffer_maxsize
  · rw [if_neg (by omega)]
  · rw [if_pos (by omega)]

/-- Witness for the amended failed-cycle behavior: a one-entry buffer is
untouched, a full 20-entry buffer loses its oldest entry. -/
theorem failed_cycle_buffer_effect_witness :
    sampler_cycle ([0] : List ℕ) (Except.error "OSError") = [0] ∧
    sampler_cycle (List.range 20) (Except.error "OSError") = (List.range 20).drop 1 :=
  ⟨(failed_cycle_buffer_effect [0] "OSError").1 (by decide),
   (failed_cycle_buffer_effect (List.range 20) "OSError").2 (by decide)⟩

/-- C9 failing inputs: a `bus` of the wrong type makes `__init__` die with
an uncaught `NameError` (the diagnostic f-string references the undefined
name `I2CBus`), and an undetected device makes it die with an uncaught
`AttributeError` (the diagnostic f-string evaluates `bus.value` on an
`int`): in those two fatal-error paths no clear diagnostic identifying the
failed precondition is produced.  The `pga` guard does exit with its
diagnostic, and the sampler thread starts only when every guard passes, so
no snapshot ever reaches the buffer on a failed construction. -/
theorem init_diagnostic_bug :
    ads1115_init false true true true 5 = InitOutcome.uncaughtError "NameError" ∧
    ads1115_init true true true false 5 = InitOutcome.uncaughtError "AttributeError" ∧
    ads1115_init true false true true 5 =
      InitOutcome.exitWithDiagnostic "'pga' type mismatched" ∧
    (∀ (b p a d : Bool) (n : Int),
      ads1115_init b p a d n = InitOutcome.samplerStarted →
        b = true ∧ p = true ∧ a = true ∧ d = true) := by
  refine ⟨rfl, rfl, rfl, ?_⟩
  intro b p a d n h
  cases b <;> cases p <;> cases a <;> cases d <;> simp_all [ads1115_init]

/-- Witness for the construction-outcome theorem: with every guard passing,
the sampler starts. -/
theorem init_diagnostic_bug_witness :
    (true = true ∧ true = true ∧ true = true ∧ true = true) :=
  init_diagnostic_bug.2.2.2 true true true true 5 rfl

/-- C10: `__init__` stores any integer sample count without validating
positivity, so construction succeeds for every count; the final division of
`_read_analog_input` is well-defined for every count n ≥ 1, but at count 0
every read fails with `ZeroDivisionError`. -/
theorem sampling_count_unvalidated :
    (∀ n : Int, ads1115_init true true true true n = InitOutcome.samplerStarted) ∧
    (∀ (pga n : Nat) (reads : Nat → Nat × Nat), 1 ≤ n →
      ∃ q : ℚ, read_analog_input pga n reads = Except.ok q) ∧
    (∀ (pga : Nat) (reads : Nat → Nat × Nat),
      read_analog_input pga 0 reads = Except.error "ZeroDivisionError") := by
  refine ⟨fun n => rfl, ?_, fun pga reads => rfl⟩
  intro pga n reads h
  unfold read_analog_input
  rw [if_neg (show ¬ n = 0 by omega)]
  exact ⟨_, rfl⟩

/-- Witness for the unvalidated sample count: construction succeeds at the
nonsensical count -3, a one-sample read succeeds, a zero-sample read raises. -/
theorem sampling_count_unvalidated_witness :
    ads1115_init true true true true (-3) = InitOutcome.samplerStarted ∧
    (∃ q : ℚ, read_analog_input 0 1 (fun _ => (0, 0)) = Except.ok q) ∧
    read_analog_input 0 0 (fun _ => (0, 0)) = Except.error "ZeroDivisionError" :=
  ⟨sampling_count_unvalidated.1 (-3),
   sampling_count_unvalidated.2.1 0 1 (fun _ => (0, 0)) (by norm_num),
   sampling_count_unvalidated.2.2 0 (fun _ => (0, 0))⟩

end TiADS1115
